import Mathlib

/-!
# Verification of the `googlegeocode` package

A shallow embedding of `geocode.go` from the `googlegeocode` repository,
together with theorems settling the specification claims about it.

Modelling conventions:
* Go `time.Time` instants are modelled as `Int` nanoseconds since the Unix
  epoch (the calendar computations of the quota-reset logic work on `Int`
  seconds and are lifted by a factor of `1000000000`).
* Go strings and `[]byte` values are modelled as Lean `String`s; the
  byte-level content of the state file is the `.data` list of characters.
* The standard-library timestamp codec (`time.Format`/`time.Parse` with
  `time.RFC3339Nano`) is an external collaborator; the serialization layer
  is parameterised by a pair of functions `fmt : Int → String` and
  `prs : String → Int` standing for it, with its documented round-trip and
  newline-freeness properties taken as hypotheses where a claim needs them.
* The HTTP transport, body reader and JSON decoder are external
  collaborators, modelled as an environment `Env` of oracle functions.
* The instants at which the Go code calls `time.Now()` are passed
  explicitly, in program order: `t1` (quota-expiration check, line 87),
  `t2` (`time.Since` in the pacing sleep, line 95), `t3` (the `lastQuery`
  update after `http.Get` returns, line 105) and `t4` (the quota-reset
  computation, line 131).
-/

set_option autoImplicit false

namespace GoogleGeocode

/-- The `geocodeURL` constant from `geocode.go`. -/
def geocodeURL : String := "https://maps.googleapis.com/maps/api/geocode/json?address="

/-- The minimum inter-request interval: 20 milliseconds, in nanoseconds. -/
def minInterval : Int := 20000000

/-- The mutable fields of the `geocoder` struct (the `sync.Mutex` and the
`*os.File` handle are modelled separately: the lock by events in the
execution trace, the file by explicit content passing). -/
structure geocoder where
  apiKey : String
  lastQuery : Int
  queryLimitReached : Bool
  queryLimitExpiration : Int
  deriving DecidableEq, Repr

/-- The zero value of the `geocoder` struct. -/
def geocoder.default : geocoder :=
  { apiKey := "", lastQuery := 0, queryLimitReached := false, queryLimitExpiration := 0 }

/-- The `Results` struct: the `status` field is the only field the core
inspects; each entry of the `results` array is opaque passthrough payload,
modelled as an uninterpreted `String`. -/
structure Results where
  results : List String
  status : String
  deriving DecidableEq, Repr

/-- The zero value `Results{}`. -/
def zeroResults : Results := { results := [], status := "" }

/-! ## Serialization (lines 160–176 and 191–200 of `geocode.go`) -/

/-- Model of Go `strings.Join(lines, "\n")`. -/
def goJoin (lines : List String) : String :=
  ⟨List.intercalate [Char.ofNat 10] (lines.map String.data)⟩

/-- Model of Go `strings.Split(s, "\n")`. -/
def goSplit (s : String) : List String :=
  (s.data.splitOn (Char.ofNat 10)).map String.mk

/-- Model of Go `strconv.FormatBool`. -/
def formatBool (b : Bool) : String := if b then "true" else "false"

/-- Model of Go `strconv.ParseBool` as used at line 169: the boolean value
it returns, which is `false` whenever the input is not one of the accepted
spellings (the accompanying error is dropped by the caller). -/
def parseBool (s : String) : Bool :=
  s = "1" ∨ s = "t" ∨ s = "T" ∨ s = "true" ∨ s = "TRUE" ∨ s = "True"

/-- The `geocoder.string` method (lines 191–200): the 4-line, newline-joined
serialized form, with `fmt` standing for `Format(time.RFC3339Nano)`. -/
def geocoder.string (fmt : Int → String) (g : geocoder) : String :=
  goJoin [g.apiKey, fmt g.lastQuery, formatBool g.queryLimitReached,
    fmt g.queryLimitExpiration]

/-- The parsing core of `newGeocoderFromFile` (the `strings.Split` at line
160 and the fallthrough `switch` at lines 164–176), with `prs` standing for
`time.Parse(time.RFC3339Nano, ·)`'s returned value (zero on error, the error
itself being dropped).  A `case` body runs exactly when its own condition or
any earlier case's condition holds, mirroring Go `fallthrough`. -/
def loadRecord (prs : String → Int) (content : String) : geocoder :=
  let splitConent := goSplit content
  let splitContentLength := splitConent.length
  let g0 := geocoder.default
  let g1 := if splitContentLength > 3 then
    { g0 with queryLimitExpiration := prs (splitConent.getD 3 "") } else g0
  let g2 := if splitContentLength ≥ 3 then
    { g1 with queryLimitReached := parseBool (splitConent.getD 2 "") } else g1
  let g3 := if splitContentLength ≥ 2 then
    { g2 with lastQuery := prs (splitConent.getD 1 "") } else g2
  { g3 with apiKey := splitConent.getD 0 "" }

/-- The effect of `geocoder.store` (lines 203–217) on the file content:
`Seek(0, 0)` followed by `Write(bytes)` overwrites the prefix of the
existing content and leaves any bytes past the written length in place
(there is no truncation). -/
def storeFile (prev written : String) : String :=
  ⟨written.data ++ prev.data.drop written.data.length⟩

/-! ## Serialization lemmas -/

theorem goSplit_goJoin (lines : List String) (hne : lines ≠ [])
    (hnl : ∀ l ∈ lines, Char.ofNat 10 ∉ l.data) :
    goSplit (goJoin lines) = lines := by
  unfold goSplit goJoin
  rw [show (String.mk (List.intercalate [Char.ofNat 10] (lines.map String.data))).data
      = List.intercalate [Char.ofNat 10] (lines.map String.data) from rfl]
  rw [List.splitOn_intercalate (lines.map String.data) (Char.ofNat 10)
    (by intro l hl; obtain ⟨s, hs, rfl⟩ := List.mem_map.mp hl; exact hnl s hs)
    (by simpa using hne)]
  rw [List.map_map]
  have : (String.mk ∘ String.data) = id := by
    funext s; cases s; rfl
  rw [this, List.map_id]

theorem parseBool_formatBool (b : Bool) : parseBool (formatBool b) = b := by
  cases b <;> decide

/-! ## The America/Los_Angeles clock and the quota-reset computation
(lines 119–136 of `geocode.go`)

The timezone database consulted by `time.LoadLocation("America/Los_Angeles")`
is embedded concretely for the era the code runs in (the post-2007 United
States daylight-saving rule): UTC−8 (PST) normally, UTC−7 (PDT) from the
second Sunday of March at 02:00 local standard time to the first Sunday of
November at 02:00 local daylight time.  Calendar arithmetic uses the
standard civil-from-days / days-from-civil algorithms on the proleptic
Gregorian calendar.  All instants here are `Int` seconds since the Unix
epoch; day indices are days since 1970-01-01. -/

/-- Days since the epoch of the civil date `(y, m, d)`. -/
def daysFromCivil (y m d : Int) : Int :=
  let yAdj := y - (if m ≤ 2 then 1 else 0)
  let era := yAdj.fdiv 400
  let yoe := yAdj - era * 400
  let doy := (153 * (m + (if m > 2 then -3 else 9)) + 2).fdiv 5 + d - 1
  let doe := yoe * 365 + yoe.fdiv 4 - yoe.fdiv 100 + doy
  era * 146097 + doe - 719468

/-- The civil year containing the epoch day `z`. -/
def yearOfDay (z : Int) : Int :=
  let z' := z + 719468
  let era := z'.fdiv 146097
  let doe := z' - era * 146097
  let yoe := (doe - doe.fdiv 1460 + doe.fdiv 36524 - doe.fdiv 146096).fdiv 365
  let doy := doe - (365 * yoe + yoe.fdiv 4 - yoe.fdiv 100)
  let mp := (5 * doy + 2).fdiv 153
  yoe + era * 400 + (if mp ≥ 10 then 1 else 0)

/-- Day of week of an epoch day, with Sunday = 0 (1970-01-01 was a Thursday). -/
def dayOfWeek (d : Int) : Int := (d + 4).emod 7

/-- The first Sunday on or after the given epoch day. -/
def firstSundayOnOrAfter (d : Int) : Int := d + (7 - dayOfWeek d).emod 7

/-- Epoch day of the second Sunday of March of year `y` (US DST start day). -/
def springForwardDay (y : Int) : Int := firstSundayOnOrAfter (daysFromCivil y 3 8)

/-- Epoch day of the first Sunday of November of year `y` (US DST end day). -/
def fallBackDay (y : Int) : Int := firstSundayOnOrAfter (daysFromCivil y 11 1)

/-- UTC instant at which DST begins in year `y`: 02:00 PST = 10:00 UTC. -/
def dstStartInstant (y : Int) : Int := springForwardDay y * 86400 + 36000

/-- UTC instant at which DST ends in year `y`: 02:00 PDT = 09:00 UTC. -/
def dstEndInstant (y : Int) : Int := fallBackDay y * 86400 + 32400

/-- Whether the instant `t` falls within daylight-saving time in
America/Los_Angeles. -/
def isDSTinstant (t : Int) : Bool :=
  let y := yearOfDay (t.fdiv 86400)
  dstStartInstant y ≤ t ∧ t < dstEndInstant y

/-- UTC offset (seconds) of America/Los_Angeles at instant `t`:
−7 h during DST, −8 h otherwise. -/
def pacificOffset (t : Int) : Int := if isDSTinstant t then -25200 else -28800

/-- The local (Pacific) civil day index containing instant `t`; this is the
date produced by `time.Now().In(pacificTimezone).Format("Jan 2 2006")`. -/
def localDay (t : Int) : Int := (t + pacificOffset t).fdiv 86400

/-- Whether the local midnight opening epoch day `d` is on daylight-saving
time: true strictly after the spring-forward day (whose midnight is still
PST) through the fall-back day inclusive (whose midnight is still PDT) —
the transitions themselves happen at 02:00 local. -/
def midnightIsDST (d : Int) : Bool :=
  springForwardDay (yearOfDay d) < d ∧ d ≤ fallBackDay (yearOfDay d)

/-- The UTC instant of the Pacific local midnight that opens epoch day `d`:
what `time.ParseInLocation("Jan 2 2006", date, pacificTimezone)` returns for
the date of day `d`. -/
def pacificMidnight (d : Int) : Int :=
  d * 86400 + 28800 - (if midnightIsDST d then 3600 else 0)

/-- The value `beginingOfDayPacific` at line 131: the current instant truncated to the
start of its Pacific local calendar day via the `Format`/`ParseInLocation`
round trip. -/
def beginingOfDayPacific (now : Int) : Int := pacificMidnight (localDay now)

/-- The quota-reset instant computed at lines 131–136:
`beginingOfDayPacific.Add(time.Hour * 24)`, in seconds. -/
def queryLimitExpirationSecs (now : Int) : Int := beginingOfDayPacific now + 86400

/-- The same instant in nanoseconds, for a `now` in nanoseconds (the parsed
midnight has zero sub-second part). -/
def queryLimitExpirationNs (now : Int) : Int :=
  1000000000 * queryLimitExpirationSecs (now.fdiv 1000000000)

/-- Modelled from the spec: "the next midnight in a fixed reference timezone
(America/Los_Angeles) strictly after `now`" — the midnight opening the local
day after the one containing `now`. -/
def nextPacificMidnight (now : Int) : Int := pacificMidnight (localDay now + 1)

/-! ## The `GetResults` request cycle (lines 76–142 of `geocode.go`)

Go's `defer` semantics matter here and are modelled exactly:
* `defer geocoderInstance.store()` at line 78 evaluates its receiver — a
  *value* receiver, hence a copy of `geocoderInstance` — at the moment the
  `defer` statement runs, i.e. at entry, before the mutex is even taken;
* deferred calls run in LIFO order, so the `Unlock` registered at line 82
  runs before the `store` registered at line 78, and the `resp.Body.Close`
  registered at line 102 (when reached) runs before both. -/

/-- Externally observable steps of one `GetResults` call, in order. -/
inductive Event where
  | lock
  | unlock
  | stored (g : geocoder)
  | closeBody
  | sleep (d : Int)
  | httpCall (url : String)
  deriving DecidableEq, Repr

deriving instance DecidableEq for Except

/-- Outcome of `http.Get` followed by `ioutil.ReadAll(resp.Body)`:
a transport-layer failure, or a response whose body read yields either a
read error or the body bytes. -/
inductive HttpGetRes where
  | transportError (msg : String)
  | ok (readRes : Except String String)
  deriving DecidableEq, Repr

/-- The external collaborators of one call: URL escaping, the HTTP
transport (with the body reader folded in), and the JSON decoder. -/
structure Env where
  queryEscape : String → String
  httpGet : String → HttpGetRes
  unmarshal : String → Except String Results

/-- Everything one `GetResults` call produces: the returned pair, the final
in-memory state, the state right after the admission check (`none` when the
call was rejected), the argument of the pacing `time.Sleep` (`none` when the
call was rejected before reaching it), and the event trace (body events
followed by the deferred calls in LIFO order). -/
structure RunOut where
  results : Results
  err : Option String
  g' : geocoder
  gAdmit : Option geocoder
  sleepArg : Option Int
  trace : List Event
  deriving DecidableEq, Repr

/-- Error message of the two quota-exceeded returns (lines 88 and 138). -/
def quotaMsg : String :=
  "the maximum daily queries have been exceeded, and the limit will be reset at midnight pacific time"

/-- Error message of the transport-failure return (line 100). -/
def transportMsg (m : String) : String := "Error geocoding address: <" ++ m ++ ">"

/-- Error message of the body-read-failure return (line 110). -/
def readMsg (m : String) : String := "Error decoding geocoder result: <" ++ m ++ ">"

/-- Error message of the JSON-decode-failure return (line 116). -/
def unmarshalMsg (m : String) : String := "Error unmarshaling geocoder result: <" ++ m ++ ">"

/-- One call of `GetResults(address)` starting from in-memory state `g`,
with `t1 … t4` the successive values of `time.Now()` (see the header
comment) and `env` the external collaborators. -/
def GetResults (env : Env) (t1 t2 t3 t4 : Int) (g : geocoder) (address : String) : RunOut :=
  -- line 78: defer store — snapshots the receiver now; line 81–82: lock, defer unlock
  let snapshot := g
  -- lines 85–92: quota check
  if g.queryLimitReached && decide (t1 < g.queryLimitExpiration) then
    { results := zeroResults, err := some quotaMsg, g' := g, gAdmit := none,
      sleepArg := none,
      trace := [Event.lock, Event.unlock, Event.stored snapshot] }
  else
    let g1 := if g.queryLimitReached then { g with queryLimitReached := false } else g
    -- line 95: pacing sleep, 20 ms minus time since the recorded lastQuery
    let d := minInterval - (t2 - g1.lastQuery)
    -- line 98: the external GET
    let url := geocodeURL ++ env.queryEscape address ++ "&key=" ++ g1.apiKey
    let pre := [Event.lock, Event.sleep d, Event.httpCall url]
    match env.httpGet url with
    | HttpGetRes.transportError m =>
      -- lines 99–101: transport failure (no Close deferred; lastQuery untouched)
      { results := zeroResults, err := some (transportMsg m), g' := g1,
        gAdmit := some g1, sleepArg := some d,
        trace := pre ++ [Event.unlock, Event.stored snapshot] }
    | HttpGetRes.ok readRes =>
      -- line 102: defer resp.Body.Close; line 105: record lastQuery
      let g2 := { g1 with lastQuery := t3 }
      match readRes with
      | Except.error m =>
        { results := zeroResults, err := some (readMsg m), g' := g2,
          gAdmit := some g1, sleepArg := some d,
          trace := pre ++ [Event.closeBody, Event.unlock, Event.stored snapshot] }
      | Except.ok body =>
        match env.unmarshal body with
        | Except.error m =>
          { results := zeroResults, err := some (unmarshalMsg m), g' := g2,
            gAdmit := some g1, sleepArg := some d,
            trace := pre ++ [Event.closeBody, Event.unlock, Event.stored snapshot] }
        | Except.ok res =>
          -- lines 119–139: quota-exhaustion transition
          if res.status = "OVER_QUERY_LIMIT" then
            let g3 := { g2 with
              queryLimitReached := true
              queryLimitExpiration := queryLimitExpirationNs t4 }
            { results := zeroResults, err := some quotaMsg, g' := g3,
              gAdmit := some g1, sleepArg := some d,
              trace := pre ++ [Event.closeBody, Event.unlock, Event.stored snapshot] }
          else
            { results := res, err := none, g' := g2,
              gAdmit := some g1, sleepArg := some d,
              trace := pre ++ [Event.closeBody, Event.unlock, Event.stored snapshot] }

/-! ## `newGeocoderFromFile` (lines 145–188 of `geocode.go`) -/

/-- Error message wrapper of the prompt loop (line 183; the quoted prompt
text in the middle of the Go message is abbreviated here). -/
def promptErrMsg (e : String) : String :=
  "An error occured reading response from the prompt (" ++ e ++ ")"

/-- The credential prompt loop (lines 179–185): runs while the key is
empty; each element of `stdin` is the outcome of one `fmt.Scanln` call —
an error or the scanned token.  A `Scanln` attempt past the end of `stdin`
fails (end of input). -/
def promptLoop (key : String) : List (Except String String) → Except String String
  | [] => if key = "" then Except.error (promptErrMsg "EOF") else Except.ok key
  | r :: rest =>
    if key = "" then
      match r with
      | Except.error e => Except.error (promptErrMsg e)
      | Except.ok tok => promptLoop tok rest
    else Except.ok key

/-- The function `newGeocoderFromFile` (lines 145–188).  `file` is the prior content of
the backing file (`none` when it does not exist — `os.IsNotExist` is
tolerated at line 149); `stdin` the prompt outcomes.  Returns the
initialized record together with the content of the backing file right
after `os.Create` (line 154) truncated it. -/
def newGeocoderFromFile (prs : String → Int) (file : Option String)
    (stdin : List (Except String String)) : Except String (geocoder × String) :=
  let content := file.getD ""
  let g := loadRecord prs content
  match promptLoop g.apiKey stdin with
  | Except.error e => Except.error e
  | Except.ok key => Except.ok ({ g with apiKey := key }, "")

/-! ## Helper lemmas about the serialization layer -/

theorem formatBool_no_newline (b : Bool) : Char.ofNat 10 ∉ (formatBool b).data := by
  cases b <;> decide

theorem loadRecord_split₁ (prs : String → Int) (content a : String)
    (h : goSplit content = [a]) :
    loadRecord prs content = ⟨a, 0, false, 0⟩ := by
  simp [loadRecord, h, geocoder.default]

theorem loadRecord_split₂ (prs : String → Int) (content a b : String)
    (h : goSplit content = [a, b]) :
    loadRecord prs content = ⟨a, prs b, false, 0⟩ := by
  simp [loadRecord, h, geocoder.default]

theorem loadRecord_split₃ (prs : String → Int) (content a b c : String)
    (h : goSplit content = [a, b, c]) :
    loadRecord prs content = ⟨a, prs b, parseBool c, 0⟩ := by
  simp [loadRecord, h, geocoder.default]

theorem loadRecord_split₄ (prs : String → Int) (content a b c d : String)
    (h : goSplit content = [a, b, c, d]) :
    loadRecord prs content = ⟨a, prs b, parseBool c, prs d⟩ := by
  simp [loadRecord, h, geocoder.default]

theorem goSplit_string (fmt : Int → String) (g : geocoder)
    (hnl : ∀ t, Char.ofNat 10 ∉ (fmt t).data)
    (hkey : Char.ofNat 10 ∉ g.apiKey.data) :
    goSplit (geocoder.string fmt g) =
      [g.apiKey, fmt g.lastQuery, formatBool g.queryLimitReached,
        fmt g.queryLimitExpiration] := by
  apply goSplit_goJoin
  · simp
  · intro l hl
    simp only [List.mem_cons, List.not_mem_nil, or_false] at hl
    rcases hl with rfl | rfl | rfl | rfl
    · exact hkey
    · exact hnl _
    · exact formatBool_no_newline _
    · exact hnl _

theorem load_string_roundtrip (fmt : Int → String) (prs : String → Int)
    (hinv : ∀ t, prs (fmt t) = t)
    (hnl : ∀ t, Char.ofNat 10 ∉ (fmt t).data)
    (g : geocoder) (hkey : Char.ofNat 10 ∉ g.apiKey.data) :
    loadRecord prs (geocoder.string fmt g) = g := by
  rw [loadRecord_split₄ prs _ _ _ _ _ (goSplit_string fmt g hnl hkey), hinv, hinv,
    parseBool_formatBool]

/-- A concrete timestamp codec used to instantiate the codec hypotheses in
witnesses: an injective unary encoding with an explicit left inverse. -/
def fmtW (t : Int) : String :=
  match t with
  | Int.ofNat n => ⟨Char.ofNat 112 :: List.replicate n (Char.ofNat 120)⟩
  | Int.negSucc n => ⟨Char.ofNat 110 :: List.replicate n (Char.ofNat 120)⟩

/-- Left inverse of `fmtW`. -/
def prsW (s : String) : Int :=
  match s.data with
  | [] => 0
  | c :: rest =>
    if c = Char.ofNat 112 then Int.ofNat rest.length
    else if c = Char.ofNat 110 then Int.negSucc rest.length
    else 0

theorem prsW_fmtW (t : Int) : prsW (fmtW t) = t := by
  cases t <;> simp [fmtW, prsW]

theorem fmtW_no_newline (t : Int) : Char.ofNat 10 ∉ (fmtW t).data := by
  cases t <;> simp [fmtW, List.mem_replicate]

/-! ## Claim C5 -/

/-- Claim C5: for every `StateRecord` with valid field values — any
credential without embedded newlines, any timestamps, either boolean —
serializing it with `geocoder.string` and parsing the result with the load
logic yields a record equal to the original, including the default record.
The timestamp codec hypotheses state the documented behavior of Go's
`time.RFC3339Nano` format/parse pair: parsing is a left inverse of
formatting and formatted timestamps contain no newline. -/
theorem C5_save_load_roundtrip (fmt : Int → String) (prs : String → Int)
    (hinv : ∀ t, prs (fmt t) = t)
    (hnl : ∀ t, Char.ofNat 10 ∉ (fmt t).data)
    (g : geocoder) (hkey : Char.ofNat 10 ∉ g.apiKey.data) :
    loadRecord prs (geocoder.string fmt g) = g :=
  load_string_roundtrip fmt prs hinv hnl g hkey

/-- Witness for C5 at the concrete codec `fmtW`/`prsW`, a non-default
record and the default record. -/
theorem C5_save_load_roundtrip_witness :
    loadRecord prsW (geocoder.string fmtW ⟨"KEY", 5, true, 9⟩) = ⟨"KEY", 5, true, 9⟩ ∧
    loadRecord prsW (geocoder.string fmtW geocoder.default) = geocoder.default :=
  ⟨C5_save_load_roundtrip fmtW prsW prsW_fmtW fmtW_no_newline _ (by decide),
   C5_save_load_roundtrip fmtW prsW prsW_fmtW fmtW_no_newline _ (by decide)⟩

/-! ## Claim C6 -/

/-- Claim C6 (amended): `store` overwrites the destination from offset 0
without truncating.  The serialized form becomes a prefix of the
destination; the contents equal exactly the serialized form whenever the
prior content is no longer than it; and the length never exceeds the
maximum of the prior length and the serialized length (so repeated saves
cannot grow the file without bound) — but residual bytes of a longer prior
content survive past the written length. -/
theorem C6_store_seek_rewrite (fmt : Int → String) (g : geocoder) (prev : String) :
    (prev.data.length ≤ (geocoder.string fmt g).data.length →
      storeFile prev (geocoder.string fmt g) = geocoder.string fmt g) ∧
    (storeFile prev (geocoder.string fmt g)).data.take (geocoder.string fmt g).data.length
      = (geocoder.string fmt g).data ∧
    (storeFile prev (geocoder.string fmt g)).data.length
      = max (geocoder.string fmt g).data.length prev.data.length := by
  refine ⟨fun h => ?_, ?_, ?_⟩
  · have : prev.data.drop (geocoder.string fmt g).data.length = [] :=
      List.drop_eq_nil_of_le h
    unfold storeFile
    rw [this, List.append_nil]
  · unfold storeFile
    exact List.take_left _ _
  · unfold storeFile
    simp only [List.length_append, List.length_drop]
    omega

/-- Witness for C6 at a concrete record and empty prior content. -/
theorem C6_store_seek_rewrite_witness :
    storeFile "" (geocoder.string fmtW ⟨"K", 1, false, 2⟩) = geocoder.string fmtW ⟨"K", 1, false, 2⟩ :=
  (C6_store_seek_rewrite fmtW ⟨"K", 1, false, 2⟩ "").1 (by decide)

/-- Counterexample to claim C6 as stated: with a prior content longer than
the new serialized form, the destination after `store` does not equal the
serialized form — the trailing bytes of the old content remain. -/
theorem C6_counterexample :
    storeFile "AAAAAAAAAAAAAAAAAAAAAAAAAAAAAAAAAAAAAAAA"
        (geocoder.string fmtW ⟨"K", 1, false, 2⟩)
      ≠ geocoder.string fmtW ⟨"K", 1, false, 2⟩ := by decide

/-- When the loaded content supplies a credential, the prompt loop is never
entered: the record is the parse of the content and the file is left
truncated. -/
theorem newGeocoderFromFile_of_key (prs : String → Int) (content : String)
    (stdin : List (Except String String))
    (h : (loadRecord prs content).apiKey ≠ "") :
    newGeocoderFromFile prs (some content) stdin =
      Except.ok (loadRecord prs content, "") := by
  unfold newGeocoderFromFile
  simp only [Option.getD_some]
  cases stdin with
  | nil => simp [promptLoop, h]
  | cons r rest => simp [promptLoop, h]

/-! ## Claim C9 -/

/-- Claim C9: `newGeocoderFromFile` truncates the backing file via
`os.Create` immediately after reading it: on any successful load whose
content supplies a credential, the returned record is the full parse of the
prior content while the returned file content is empty — the on-disk state
is erased until the first `store`. -/
theorem C9_create_truncates (prs : String → Int) (content : String)
    (stdin : List (Except String String))
    (h : (loadRecord prs content).apiKey ≠ "") :
    newGeocoderFromFile prs (some content) stdin =
      Except.ok (loadRecord prs content, "") :=
  newGeocoderFromFile_of_key prs content stdin h

/-- Witness for C9: a file holding a credential and quota state parses to
the in-memory record while the file itself is left empty. -/
theorem C9_create_truncates_witness :
    newGeocoderFromFile prsW (some "KEY") [] = Except.ok (loadRecord prsW "KEY", "") ∧
    (loadRecord prsW "KEY").apiKey = "KEY" :=
  ⟨C9_create_truncates prsW "KEY" [] (by decide), by decide⟩

/-! ## Claim C7 -/

theorem goSplit_single (s : String) (h : Char.ofNat 10 ∉ s.data) : goSplit s = [s] := by
  unfold goSplit
  have hs : s.data.splitOn (Char.ofNat 10) = [s.data] := by
    unfold List.splitOn
    apply List.splitOnP_eq_single
    intro x hx
    simp only [beq_iff_eq]
    rintro rfl
    exact h hx
  rw [hs]
  cases s
  rfl

theorem loadRecord_empty (prs : String → Int) : loadRecord prs "" = ⟨"", 0, false, 0⟩ :=
  loadRecord_split₁ prs "" "" (by decide)

/-- Counterexample to claim C7 as stated: on a nonexistent source,
`newGeocoderFromFile` does not return the all-default record — it prompts
for a credential, and the returned record carries the entered key. -/
theorem C7_counterexample :
    newGeocoderFromFile prsW none [Except.ok "KEY"] =
      Except.ok (⟨"KEY", 0, false, 0⟩, "") ∧
    (⟨"KEY", 0, false, 0⟩ : geocoder) ≠ geocoder.default := by
  constructor
  · rfl
  · decide

/-- Claim C7 (amended): for a source of exactly 1, 2 or 3 newline-separated
lines whose first line (the credential) is nonempty, the load yields the
parsed line values in order with zero-valued missing trailing fields; for a
nonexistent source the parsed fields are all defaults and the credential is
then obtained from the prompt (so the result is the all-default record only
with the prompted key substituted, and an error exactly when the prompt
fails); lines beyond the 4th are ignored. -/
theorem C7_partial_load (prs : String → Int) (l0 l1 l2 : String)
    (stdin : List (Except String String))
    (h0 : l0 ≠ "") (hn0 : Char.ofNat 10 ∉ l0.data)
    (hn1 : Char.ofNat 10 ∉ l1.data) (hn2 : Char.ofNat 10 ∉ l2.data) :
    newGeocoderFromFile prs (some l0) stdin = Except.ok (⟨l0, 0, false, 0⟩, "") ∧
    newGeocoderFromFile prs (some (goJoin [l0, l1])) stdin =
      Except.ok (⟨l0, prs l1, false, 0⟩, "") ∧
    newGeocoderFromFile prs (some (goJoin [l0, l1, l2])) stdin =
      Except.ok (⟨l0, prs l1, parseBool l2, 0⟩, "") ∧
    newGeocoderFromFile prs none stdin =
      (promptLoop "" stdin).map (fun k => (⟨k, 0, false, 0⟩, "")) ∧
    (∀ ls : List String, (∀ l ∈ ls, Char.ofNat 10 ∉ l.data) → 4 ≤ ls.length →
      loadRecord prs (goJoin ls) = loadRecord prs (goJoin (ls.take 4))) := by
  have h1 : loadRecord prs l0 = ⟨l0, 0, false, 0⟩ :=
    loadRecord_split₁ prs l0 l0 (goSplit_single l0 hn0)
  have h2 : loadRecord prs (goJoin [l0, l1]) = ⟨l0, prs l1, false, 0⟩ := by
    refine loadRecord_split₂ prs _ l0 l1 (goSplit_goJoin [l0, l1] (by simp) ?_)
    intro l hl
    simp only [List.mem_cons, List.not_mem_nil, or_false] at hl
    rcases hl with rfl | rfl
    exacts [hn0, hn1]
  have h3 : loadRecord prs (goJoin [l0, l1, l2]) = ⟨l0, prs l1, parseBool l2, 0⟩ := by
    refine loadRecord_split₃ prs _ l0 l1 l2 (goSplit_goJoin [l0, l1, l2] (by simp) ?_)
    intro l hl
    simp only [List.mem_cons, List.not_mem_nil, or_false] at hl
    rcases hl with rfl | rfl | rfl
    exacts [hn0, hn1, hn2]
  refine ⟨?_, ?_, ?_, ?_, ?_⟩
  · rw [newGeocoderFromFile_of_key prs l0 stdin (by rw [h1]; exact h0), h1]
  · rw [newGeocoderFromFile_of_key prs _ stdin (by rw [h2]; exact h0), h2]
  · rw [newGeocoderFromFile_of_key prs _ stdin (by rw [h3]; exact h0), h3]
  · unfold newGeocoderFromFile
    simp only [Option.getD_none, loadRecord_empty]
    cases h : promptLoop "" stdin <;> simp [Except.map, h]
  · intro ls hnls hlen
    obtain ⟨a, b, c, d, rest, rfl⟩ :
        ∃ a b c d rest, ls = a :: b :: c :: d :: rest := by
      match ls, hlen with
      | a :: b :: c :: d :: rest, _ => exact ⟨a, b, c, d, rest, rfl⟩
    have hsplit : goSplit (goJoin (a :: b :: c :: d :: rest)) =
        a :: b :: c :: d :: rest :=
      goSplit_goJoin _ (by simp) hnls
    have hsplit4 : goSplit (goJoin [a, b, c, d]) = [a, b, c, d] := by
      refine goSplit_goJoin _ (by simp) ?_
      intro l hl
      apply hnls
      simp only [List.mem_cons, List.not_mem_nil, or_false] at hl ⊢
      tauto
    rw [show (a :: b :: c :: d :: rest).take 4 = [a, b, c, d] from rfl,
      loadRecord_split₄ prs _ a b c d hsplit4]
    unfold loadRecord
    rw [hsplit]
    simp [List.getD]

/-- Witness for C7 at concrete lines and stdin. -/
theorem C7_partial_load_witness :
    newGeocoderFromFile prsW (some "KEY") [] = Except.ok (⟨"KEY", 0, false, 0⟩, "") ∧
    newGeocoderFromFile prsW (some (goJoin ["KEY", "px"])) [] =
      Except.ok (⟨"KEY", prsW "px", false, 0⟩, "") ∧
    newGeocoderFromFile prsW (some (goJoin ["KEY", "px", "true"])) [] =
      Except.ok (⟨"KEY", prsW "px", parseBool "true", 0⟩, "") ∧
    newGeocoderFromFile prsW none [] =
      (promptLoop "" []).map (fun k => (⟨k, 0, false, 0⟩, "")) ∧
    (∀ ls : List String, (∀ l ∈ ls, Char.ofNat 10 ∉ l.data) → 4 ≤ ls.length →
      loadRecord prsW (goJoin ls) = loadRecord prsW (goJoin (ls.take 4))) :=
  C7_partial_load prsW "KEY" "px" "true" [] (by decide) (by decide) (by decide) (by decide)

/-! ## Claim C3 -/

/-- Counterexample to claim C3 as stated: at the instant
2025-11-03T07:30:00Z — which is 23:30 local on 2025-11-02, the fall-back
day (first Sunday of November, epoch day 20394) — the computed reset is
local-midnight-of-the-day plus 24 absolute hours, which lands at 23:00
local on the same day: it differs from the next local-midnight boundary
and is not even strictly after `now`.  The bracketing conjuncts show that
the boundary `pacificMidnight 20395` really is the next local midnight:
`now` lies in the local day 20394, between the two midnights. -/
theorem C3_counterexample :
    localDay 1762155000 = 20394 ∧
    pacificMidnight 20394 ≤ 1762155000 ∧
    (1762155000 : Int) < pacificMidnight 20395 ∧
    nextPacificMidnight 1762155000 = pacificMidnight 20395 ∧
    queryLimitExpirationSecs 1762155000 ≠ nextPacificMidnight 1762155000 ∧
    queryLimitExpirationSecs 1762155000 < 1762155000 := by
  refine ⟨by decide, by decide, by decide, by decide, by decide, by decide⟩

/-- Claim C3 (amended): the computed `quotaResetAt` always equals the local
calendar-day start (in America/Los_Angeles) of `now` plus 24 absolute
hours; whenever the midnight opening `now`'s local day and the next
midnight are in the same DST phase — i.e. the local day is not a
daylight-saving transition day — this coincides with the next
local-midnight boundary, but on transition days the two differ (see the
counterexample). -/
theorem C3_reset_is_day_start_plus_24h (now : Int) :
    queryLimitExpirationSecs now = pacificMidnight (localDay now) + 86400 ∧
    (midnightIsDST (localDay now) = midnightIsDST (localDay now + 1) →
      queryLimitExpirationSecs now = nextPacificMidnight now) := by
  constructor
  · rfl
  · intro h
    unfold queryLimitExpirationSecs beginingOfDayPacific nextPacificMidnight pacificMidnight
    rw [h]
    ring

/-- Witness for C3's amended theorem at a mid-summer instant
(2025-07-01T19:00:00Z): the computed reset equals the next Pacific
midnight. -/
theorem C3_reset_witness :
    queryLimitExpirationSecs 1751396400 = nextPacificMidnight 1751396400 :=
  (C3_reset_is_day_start_plus_24h 1751396400).2 (by decide)

/-! ## Concrete environments for closed statements -/

/-- An environment whose transport always succeeds and decodes to a
non-empty `"OK"` payload. -/
def envOK : Env :=
  { queryEscape := fun s => s
    httpGet := fun _ => HttpGetRes.ok (Except.ok "body")
    unmarshal := fun _ => Except.ok { results := ["r"], status := "OK" } }

/-- An environment whose transport always fails. -/
def envDown : Env :=
  { queryEscape := fun s => s
    httpGet := fun _ => HttpGetRes.transportError "boom"
    unmarshal := fun _ => Except.ok { results := [], status := "" } }

/-! ## Claim C1 -/

/-- Claim C1 is violated by the code (see the divergence recorded for it):
on a successful call entered at state `⟨"K", 0, false, 0⟩` with the
response arriving at `t3 = 150`, the in-memory record ends with
`lastQuery = 150`, yet the deferred `store` — whose value receiver was
copied when the `defer` statement ran, at entry — writes the *entry*
snapshot `⟨"K", 0, false, 0⟩`, and does so *after* the mutex `Unlock`
(deferred calls run in LIFO order, and the store was deferred first, before
the lock was even taken). -/
theorem C1_store_writes_stale_snapshot_after_unlock :
    (GetResults envOK 100 100 150 150 ⟨"K", 0, false, 0⟩ "a").err = none ∧
    (GetResults envOK 100 100 150 150 ⟨"K", 0, false, 0⟩ "a").g' =
      ⟨"K", 150, false, 0⟩ ∧
    (GetResults envOK 100 100 150 150 ⟨"K", 0, false, 0⟩ "a").trace =
      [Event.lock, Event.sleep (minInterval - 100),
        Event.httpCall "https://maps.googleapis.com/maps/api/geocode/json?address=a&key=K",
        Event.closeBody, Event.unlock, Event.stored ⟨"K", 0, false, 0⟩] := by
  refine ⟨rfl, rfl, by decide⟩

/-! ## Claim C2 -/

/-- Claim C2: while the quota flag is set and `now` is still strictly
before the recorded expiration, `GetResults` returns the quota-exceeded
rejection, leaves the in-memory state untouched and issues no external HTTP
request; the first call at or past the expiration clears the flag during
admission and proceeds to the external call. -/
theorem C2_quota_gate (env : Env) (t1 t2 t3 t4 : Int) (g : geocoder) (address : String) :
    (g.queryLimitReached = true → t1 < g.queryLimitExpiration →
      (GetResults env t1 t2 t3 t4 g address).err = some quotaMsg ∧
      (GetResults env t1 t2 t3 t4 g address).results = zeroResults ∧
      (GetResults env t1 t2 t3 t4 g address).g' = g ∧
      ∀ u, Event.httpCall u ∉ (GetResults env t1 t2 t3 t4 g address).trace) ∧
    (g.queryLimitReached = true → g.queryLimitExpiration ≤ t1 →
      (GetResults env t1 t2 t3 t4 g address).gAdmit =
        some { g with queryLimitReached := false } ∧
      Event.httpCall (geocodeURL ++ env.queryEscape address ++ "&key=" ++ g.apiKey) ∈
        (GetResults env t1 t2 t3 t4 g address).trace) := by
  constructor
  · intro hr hlt
    have hcond : (g.queryLimitReached && decide (t1 < g.queryLimitExpiration)) = true := by
      simp [hr, hlt]
    unfold GetResults
    rw [if_pos hcond]
    refine ⟨rfl, rfl, rfl, fun u => ?_⟩
    simp
  · intro hr hge
    have hcond : (g.queryLimitReached && decide (t1 < g.queryLimitExpiration)) = false := by
      simp [not_lt.mpr hge]
    unfold GetResults
    rw [if_neg (by simp [hcond])]
    simp only [hr, if_true]
    repeat' split
    all_goals simp [hr]

/-- Witness for C2: a concrete pre-exceeded state rejected before the
expiration with no HTTP call, and admitted (flag cleared, call issued) once
past it. -/
theorem C2_quota_gate_witness :
    (GetResults envOK 50 50 50 50 ⟨"K", 0, true, 100⟩ "a").err = some quotaMsg ∧
    Event.httpCall "https://maps.googleapis.com/maps/api/geocode/json?address=a&key=K" ∉
      (GetResults envOK 50 50 50 50 ⟨"K", 0, true, 100⟩ "a").trace ∧
    (GetResults envOK 200 200 200 200 ⟨"K", 0, true, 100⟩ "a").gAdmit =
      some ⟨"K", 0, false, 100⟩ ∧
    Event.httpCall "https://maps.googleapis.com/maps/api/geocode/json?address=a&key=K" ∈
      (GetResults envOK 200 200 200 200 ⟨"K", 0, true, 100⟩ "a").trace := by
  have h1 := (C2_quota_gate envOK 50 50 50 50 ⟨"K", 0, true, 100⟩ "a").1 rfl (by decide)
  have h2 := (C2_quota_gate envOK 200 200 200 200 ⟨"K", 0, true, 100⟩ "a").2 rfl (by decide)
  exact ⟨h1.1, h1.2.2.2 _, h2.1, h2.2⟩

/-! ## Claim C4 -/

/-- Counterexample to claim C4 as stated: on a successful call admitted at
`t1 = t2 = 100` whose response arrives at `t3 = 150`, the recorded
`lastQuery` is 150 — the response-arrival instant — not the admission
instant 100.  (The sleep argument shows pacing measured from the stored
`lastQuery`, which this very update makes the previous response-arrival
time for the next call.) -/
theorem C4_counterexample :
    (GetResults envOK 100 100 150 150 ⟨"K", 0, false, 0⟩ "a").err = none ∧
    (GetResults envOK 100 100 150 150 ⟨"K", 0, false, 0⟩ "a").sleepArg =
      some (minInterval - 100) ∧
    (GetResults envOK 100 100 150 150 ⟨"K", 0, false, 0⟩ "a").g'.lastQuery = 150 ∧
    (GetResults envOK 100 100 150 150 ⟨"K", 0, false, 0⟩ "a").g'.lastQuery ≠ 100 := by
  refine ⟨rfl, by decide, rfl, by decide⟩

/-- Claim C4 (amended): the pacing sleep argument, whenever the call
reaches the sleep, is `minInterval` minus the time elapsed (at `t2`) since
the *stored* `lastQuery`; and `lastQuery` is never set to the admission
instant: it is either left unchanged (rejection, transport failure) or set
to `t3`, the instant `http.Get` returned — i.e. when the response arrived —
which is what the next call's pacing is measured from.  Whenever the call
got a response (the deferred `Body.Close` appears in the trace),
`lastQuery` ends equal to `t3`. -/
theorem C4_pacing_from_response_arrival (env : Env) (t1 t2 t3 t4 : Int)
    (g : geocoder) (address : String) :
    ((GetResults env t1 t2 t3 t4 g address).sleepArg ≠ none →
      (GetResults env t1 t2 t3 t4 g address).sleepArg =
        some (minInterval - (t2 - g.lastQuery))) ∧
    ((GetResults env t1 t2 t3 t4 g address).g'.lastQuery = g.lastQuery ∨
      (GetResults env t1 t2 t3 t4 g address).g'.lastQuery = t3) ∧
    (Event.closeBody ∈ (GetResults env t1 t2 t3 t4 g address).trace →
      (GetResults env t1 t2 t3 t4 g address).g'.lastQuery = t3) := by
  unfold GetResults
  split
  case isTrue => simp
  case isFalse =>
    split
    all_goals
      dsimp only
    all_goals
      cases env.httpGet (geocodeURL ++ env.queryEscape address ++ "&key=" ++ g.apiKey) with
      | transportError m => simp
      | ok readRes =>
        cases readRes with
        | error m => simp
        | ok body =>
          dsimp only
          cases env.unmarshal body with
          | error m => simp
          | ok res =>
            dsimp only
            split
            all_goals simp

/-- Witness for C4's amended theorem at a concrete successful call. -/
theorem C4_pacing_from_response_arrival_witness :
    (GetResults envOK 100 100 150 150 ⟨"K", 7, false, 0⟩ "a").sleepArg =
      some (minInterval - (100 - 7)) ∧
    (GetResults envOK 100 100 150 150 ⟨"K", 7, false, 0⟩ "a").g'.lastQuery = 150 := by
  have h := C4_pacing_from_response_arrival envOK 100 100 150 150 ⟨"K", 7, false, 0⟩ "a"
  exact ⟨h.1 (by decide), h.2.2 (by decide)⟩

/-! ## Claim C8 -/

/-- Claim C8: whenever `GetResults` returns a non-`nil` error — quota
rejection, transport error, read error, decode error, or the
`OVER_QUERY_LIMIT` status — the returned `Results` is the zero value; a
non-zero payload therefore only accompanies a `nil` error, and a `nil`
error implies the payload's status is not `OVER_QUERY_LIMIT`. -/
theorem C8_zero_results_on_error (env : Env) (t1 t2 t3 t4 : Int)
    (g : geocoder) (address : String) :
    ((GetResults env t1 t2 t3 t4 g address).err ≠ none →
      (GetResults env t1 t2 t3 t4 g address).results = zeroResults) ∧
    ((GetResults env t1 t2 t3 t4 g address).err = none →
      (GetResults env t1 t2 t3 t4 g address).results.status ≠ "OVER_QUERY_LIMIT") ∧
    ((GetResults env t1 t2 t3 t4 g address).results ≠ zeroResults →
      (GetResults env t1 t2 t3 t4 g address).err = none) := by
  unfold GetResults
  split
  case isTrue => simp
  case isFalse =>
    split
    all_goals
      dsimp only
    all_goals
      cases env.httpGet (geocodeURL ++ env.queryEscape address ++ "&key=" ++ g.apiKey) with
      | transportError m => simp
      | ok readRes =>
        cases readRes with
        | error m => simp
        | ok body =>
          dsimp only
          cases env.unmarshal body with
          | error m => simp
          | ok res =>
            dsimp only
            split
            case isTrue => simp
            case isFalse h => exact ⟨fun hh => absurd rfl hh, fun _ => h, fun _ => rfl⟩

/-- Witness for C8: the quota-rejection path returns the zero `Results`,
and the successful path's payload has a non-quota status. -/
theorem C8_zero_results_on_error_witness :
    (GetResults envOK 50 50 50 50 ⟨"K", 0, true, 100⟩ "a").results = zeroResults ∧
    (GetResults envOK 100 100 150 150 ⟨"K", 0, false, 0⟩ "a").results.status ≠
      "OVER_QUERY_LIMIT" := by
  refine ⟨(C8_zero_results_on_error envOK 50 50 50 50 ⟨"K", 0, true, 100⟩ "a").1 (by decide),
    (C8_zero_results_on_error envOK 100 100 150 150 ⟨"K", 0, false, 0⟩ "a").2.1 (by decide)⟩

/-! ## Claim C10 -/

/-- Counterexample to claim C10 as stated: entering with an *expired* quota
flag (`queryLimitReached = true`, `queryLimitExpiration = 5 ≤ now = 10`),
a transport failure still returns with `queryLimitReached = false` — the
flag was cleared during admission, so not all rate/quota fields are
unchanged from entry. -/
theorem C10_counterexample :
    (GetResults envDown 10 10 10 10 ⟨"K", 0, true, 5⟩ "a").err =
      some (transportMsg "boom") ∧
    (GetResults envDown 10 10 10 10 ⟨"K", 0, true, 5⟩ "a").g'.queryLimitReached = false ∧
    (⟨"K", 0, true, 5⟩ : geocoder).queryLimitReached = true := by
  refine ⟨rfl, rfl, rfl⟩

/-- Claim C10 (amended): if admission passes and the HTTP GET fails at the
transport layer, `GetResults` returns the transport error and leaves
`lastQuery` and `queryLimitExpiration` unchanged; `queryLimitReached` is
`false` on exit — unchanged when it was `false` at entry (in which case the
whole record is untouched), cleared when an expired flag was reset during
admission. -/
theorem C10_transport_error_frame (env : Env) (t1 t2 t3 t4 : Int)
    (g : geocoder) (address : String) (m : String)
    (hadm : g.queryLimitReached = false ∨ g.queryLimitExpiration ≤ t1)
    (hfail : env.httpGet (geocodeURL ++ env.queryEscape address ++ "&key=" ++ g.apiKey)
      = HttpGetRes.transportError m) :
    (GetResults env t1 t2 t3 t4 g address).err = some (transportMsg m) ∧
    (GetResults env t1 t2 t3 t4 g address).g'.lastQuery = g.lastQuery ∧
    (GetResults env t1 t2 t3 t4 g address).g'.queryLimitExpiration =
      g.queryLimitExpiration ∧
    (GetResults env t1 t2 t3 t4 g address).g'.queryLimitReached = false ∧
    (g.queryLimitReached = false → (GetResults env t1 t2 t3 t4 g address).g' = g) := by
  have hcond : (g.queryLimitReached && decide (t1 < g.queryLimitExpiration)) = false := by
    rcases hadm with h | h
    · simp [h]
    · simp [not_lt.mpr h]
  unfold GetResults
  rw [if_neg (by simp [hcond])]
  by_cases hr : g.queryLimitReached
  · simp only [hr, if_true]
    rw [show env.httpGet (geocodeURL ++ env.queryEscape address ++ "&key="
        ++ ({ g with queryLimitReached := false } : geocoder).apiKey)
      = HttpGetRes.transportError m from hfail]
    refine ⟨rfl, rfl, rfl, rfl, ?_⟩
    intro hctr
    exact absurd hctr (by decide)
  · simp only [hr, if_false, Bool.false_eq_true]
    rw [hfail]
    refine ⟨rfl, rfl, rfl, ?_, fun _ => rfl⟩
    simpa using hr

/-- Witness for C10's amended theorem at a concrete clear-state transport
failure. -/
theorem C10_transport_error_frame_witness :
    (GetResults envDown 10 10 10 10 ⟨"K", 3, false, 5⟩ "a").err =
      some (transportMsg "boom") ∧
    (GetResults envDown 10 10 10 10 ⟨"K", 3, false, 5⟩ "a").g' = ⟨"K", 3, false, 5⟩ := by
  have h := C10_transport_error_frame envDown 10 10 10 10 ⟨"K", 3, false, 5⟩ "a" "boom"
    (Or.inl rfl) rfl
  exact ⟨h.1, h.2.2.2.2 rfl⟩

end GoogleGeocode
